import Mathlib

/-!
# Shallow embedding of the Anodium shell orchestrator

This file embeds the shell-surface lifecycle engine of
`anodium-framework/src/shell/mod.rs` (the `Inner` orchestrator:
`try_update_mapped`, `try_map_unmaped`, `surface_commit`) together with the
layer-shell request dispatch of `src/shell/shell_manager/wlr_layer.rs`, and
proves the spec's claims about it.

Surfaces are identified by natural numbers (the source holds only stable
identities, `WlSurface`).  Coordinates and sizes are `Int` (the source uses
`i32`; none of the verified properties involves overflow).  The per-surface
auxiliary table (`SurfaceData` stored in each surface's `data_map`) is
modelled as a total function with the default slot value, which makes the
source's `insert_if_missing(SurfaceData::default)` traversal the identity.
A Rust panic (`.expect(..)` on a failed popup configure send) is modelled as
`Except.error (message, actions emitted before the panic)`.
-/

set_option linter.unnecessarySeqFocus false

namespace Anodium

/-- A 2-D point in logical coordinates (smithay `Point<i32, Logical>`). -/
structure Point where
  x : Int
  y : Int
deriving DecidableEq, Repr

/-- A 2-D size in logical coordinates (smithay `Size<i32, Logical>`). -/
structure Size where
  w : Int
  h : Int
deriving DecidableEq, Repr

/-- The resize-edge bitflags (`ResizeEdge`): which edges of the window are
being dragged.  The spec (§3, §9) fixes the legal combinations as the four
single edges plus the four corner composites; we carry the four bits. -/
structure ResizeEdge where
  top : Bool
  bottom : Bool
  left : Bool
  right : Bool
deriving DecidableEq, Repr

/-- Bitflags `intersects`: the two edge sets share at least one bit. -/
def ResizeEdge.intersects (a b : ResizeEdge) : Bool :=
  (a.top && b.top) || (a.bottom && b.bottom) || (a.left && b.left) || (a.right && b.right)

def ResizeEdge.TOP : ResizeEdge := ⟨true, false, false, false⟩

def ResizeEdge.LEFT : ResizeEdge := ⟨false, false, true, false⟩

/-- The corner composite `ResizeEdge::TOP_LEFT` = `TOP | LEFT`. -/
def ResizeEdge.TOP_LEFT : ResizeEdge := ⟨true, false, true, false⟩

/-- Modelled from the spec: the payload of an active resize (`ResizeData` in
the missing `surface_data.rs`): the dragged edges and the window location and
size at the start of the resize (§3). -/
structure ResizeData where
  edges : ResizeEdge
  initial_window_location : Point
  initial_window_size : Size
deriving DecidableEq, Repr

/-- Modelled from the spec: per-surface resize state machine (`ResizeState`
in the missing `surface_data.rs`, §3):
`{NotResizing; Resizing(data); WaitingForFinalAck(data, serial);
WaitingForCommit(data)}`. -/
inductive ResizeState where
  | NotResizing : ResizeState
  | Resizing : ResizeData → ResizeState
  | WaitingForFinalAck : ResizeData → Nat → ResizeState
  | WaitingForCommit : ResizeData → ResizeState
deriving DecidableEq, Repr

/-- Modelled from the spec: payload of a queued move-after-resize
(`MoveAfterResizeData` in the missing `surface_data.rs`); the source reads
its `target_window_location` field. -/
structure MoveAfterResizeData where
  target_window_location : Point
deriving DecidableEq, Repr

/-- Modelled from the spec: per-surface move-after-resize state machine
(`MoveAfterResizeState` in the missing `surface_data.rs`, §3):
`{Idle; WaitingForCommit(target); Current(target)}`. -/
inductive MoveAfterResizeState where
  | Idle : MoveAfterResizeState
  | WaitingForCommit : MoveAfterResizeData → MoveAfterResizeState
  | Current : MoveAfterResizeData → MoveAfterResizeState
deriving DecidableEq, Repr

/-- The per-surface auxiliary slot (`SurfaceData`): resize state and
move-after-resize state.  (The real struct has more fields; only these two
are touched by the embedded code.) -/
structure SurfaceData where
  resize_state : ResizeState
  move_after_resize_state : MoveAfterResizeState
deriving DecidableEq, Repr

/-- The default auxiliary slot installed by `insert_if_missing`. -/
def SurfaceData.default : SurfaceData :=
  ⟨ResizeState.NotResizing, MoveAfterResizeState.Idle⟩

/-- The wlr-layer-shell layer enum. -/
inductive Layer where
  | Background : Layer
  | Bottom : Layer
  | Top : Layer
  | Overlay : Layer
deriving DecidableEq, Repr

/-- The subset of `ShellEvent` reachable from the embedded code paths
(commit orchestration and layer-shell requests).  Windows, popups and layer
surfaces are named by their surface id. -/
inductive ShellEvent where
  | WindowCreated : Nat → ShellEvent
  | WindowGotResized : Nat → Option Int → Option Int → ShellEvent
  | SurfaceCommit : Nat → ShellEvent
  | LayerCreated : Nat → Option Nat → Layer → String → ShellEvent
  | LayerAckConfigure : Nat → Nat → ShellEvent
deriving DecidableEq, Repr

/-- An observable action of one commit-handling pass, in emission order:
calls into external collaborators (buffer import, popup tracker,
configure sends) and `ShellEvent`s delivered to the handler. -/
inductive Action where
  | onCommitBuffer : Nat → Action
  | popupCommit : Nat → Action
  | sendPopupConfigure : Nat → Action
  | sendLayerConfigure : Nat → Action
  | event : ShellEvent → Action
deriving DecidableEq, Repr

/-- The orchestrator state (`Inner`): the pending list, the mapped-window
and mapped-layer registries (ordered lists of surface ids), the popup
tracker's contents, the per-surface auxiliary table, and the per-surface
`initial_configure_sent` flag held by the protocol layer and read by the
orchestrator through `with_states`. -/
structure Inner where
  not_mapped_list : List Nat
  windows : List Nat
  layers : List Nat
  popups : List Nat
  surface_data : Nat → SurfaceData
  configure_sent : Nat → Bool

/-- Environment snapshot supplied by the external collaborators for one
commit: whether the surface can now be mapped (attached buffer + resolvable
geometry, consumed by `NotMappedList::try_window_map`), whether the popup
configure send succeeds, and the window's current `geometry()` size. -/
structure CommitCtx where
  mappable : Bool
  popup_send_ok : Bool
  geometry : Size

/-- `Inner::try_update_mapped` (shell/mod.rs:141-204): if the committed
surface is a mapped window, recompute its location from the resize state
(LEFT/TOP edges anchor the opposite edge), finish a `WaitingForCommit`
resize, apply a queued move-after-resize target, and report
`WindowGotResized` when either axis was produced. -/
def try_update_mapped (st : Inner) (surface : Nat) (geometry : Size) :
    Inner × List Action :=
  if st.windows.contains surface then
    let data := st.surface_data surface
    -- If the window is being resized by top or left, its location must be
    -- adjusted accordingly.
    let xy : Option Int × Option Int :=
      match data.resize_state with
      | ResizeState.Resizing rd
      | ResizeState.WaitingForFinalAck rd _
      | ResizeState.WaitingForCommit rd =>
        if rd.edges.intersects ResizeEdge.TOP_LEFT then
          (if rd.edges.intersects ResizeEdge.LEFT then
            some (rd.initial_window_location.x + (rd.initial_window_size.w - geometry.w))
          else none,
          if rd.edges.intersects ResizeEdge.TOP then
            some (rd.initial_window_location.y + (rd.initial_window_size.h - geometry.h))
          else none)
        else (none, none)
      | ResizeState.NotResizing => (none, none)
    -- Finish resizing.
    let rs : ResizeState :=
      match data.resize_state with
      | ResizeState.WaitingForCommit _ => ResizeState.NotResizing
      | s => s
    -- If the compositor requested MoveAfterResize.
    let xym : Option Int × Option Int × MoveAfterResizeState :=
      match data.move_after_resize_state with
      | MoveAfterResizeState.WaitingForCommit mdata =>
        (some mdata.target_window_location.x, some mdata.target_window_location.y,
         MoveAfterResizeState.Current mdata)
      | m => (xy.1, xy.2, m)
    let st' : Inner :=
      { st with surface_data := fun s =>
          if s = surface then ⟨rs, xym.2.2⟩ else st.surface_data s }
    if xym.1.isSome || xym.2.1.isSome then
      (st', [Action.event (ShellEvent.WindowGotResized surface xym.1 xym.2.1)])
    else
      (st', [])
  else (st, [])

/-- Modelled from the spec: `NotMappedList::try_window_map` (the missing
`surface_lists` module; spec §4.1 `try_promote`): if the pending surface now
has enough data to be mapped — summarised by the `mappable` environment bit —
remove it from the pending set and return the freshly constructed window;
otherwise return nothing and leave the registry untouched.  There is no
error outcome (the return type is an `Option`). -/
def try_window_map (st : Inner) (surface : Nat) (mappable : Bool) :
    Option Nat × Inner :=
  if st.not_mapped_list.contains surface && mappable then
    (some surface,
     { st with not_mapped_list := st.not_mapped_list.filter (· != surface) })
  else (none, st)

/-- Sets a surface's `initial_configure_sent` flag; the real flag lives in
the protocol layer's role attributes and is set by `send_configure`
(spec §4.4: "send exactly one configure and set the flag"). -/
def Inner.markConfigureSent (st : Inner) (surface : Nat) : Inner :=
  { st with configure_sent := fun s => if s = surface then true else st.configure_sent s }

/-- `Inner::try_map_unmaped` (shell/mod.rs:207-229): promote the surface
from the pending list if possible (reporting `WindowCreated`), then, if the
surface is a tracked popup whose initial configure has not been sent, send
it; a failed popup configure send hits
`.expect("Initial configure failed")`, i.e. a panic, modelled as
`Except.error` carrying the panic message and the actions already emitted. -/
def try_map_unmaped (st : Inner) (surface : Nat) (ctx : CommitCtx) :
    Except (String × List Action) (Inner × List Action) :=
  let step1 : Inner × List Action :=
    match try_window_map st surface ctx.mappable with
    | (some window, st') =>
      ({ st' with windows := st'.windows ++ [window] },
       [Action.event (ShellEvent.WindowCreated window)])
    | (none, st') => (st', [])
  let st1 := step1.1
  let acts1 := step1.2
  if st1.popups.contains surface then
    if !(st1.configure_sent surface) then
      if ctx.popup_send_ok then
        Except.ok (st1.markConfigureSent surface, acts1 ++ [Action.sendPopupConfigure surface])
      else
        Except.error ("Initial configure failed", acts1)
    else Except.ok (st1, acts1)
  else Except.ok (st1, acts1)

/-- The layer-surface block of `Inner::surface_commit`
(shell/mod.rs:280-294): if the committed surface is a mapped layer surface
whose initial configure has not been sent, send it (setting the flag). -/
def layer_initial_configure (st : Inner) (surface : Nat) : Inner × List Action :=
  if st.layers.contains surface then
    if !(st.configure_sent surface) then
      (st.markConfigureSent surface, [Action.sendLayerConfigure surface])
    else (st, [])
  else (st, [])

/-- `Inner::surface_commit` (shell/mod.rs:231-298), in source order: buffer
import, popup-tracker commit, lazy auxiliary-slot initialisation over the
subsurface tree (the identity in the total-table model), `try_map_unmaped`,
`try_update_mapped`, the pending layer-surface initial configure, and the
unconditional final `SurfaceCommit` notification.  A popup configure-send
panic aborts the pass with the actions emitted up to that point. -/
def surface_commit (st : Inner) (surface : Nat) (ctx : CommitCtx) :
    Except (String × List Action) (Inner × List Action) :=
  let acts0 := [Action.onCommitBuffer surface, Action.popupCommit surface]
  match try_map_unmaped st surface ctx with
  | Except.error e => Except.error (e.1, acts0 ++ e.2)
  | Except.ok (st1, acts1) =>
    let step2 := try_update_mapped st1 surface ctx.geometry
    let step3 := layer_initial_configure step2.1 surface
    Except.ok (step3.1,
      acts0 ++ acts1 ++ step2.2 ++ step3.2 ++ [Action.event (ShellEvent.SurfaceCommit surface)])

/-- A wlr-layer-shell protocol request (`LayerShellRequest`): either a new
layer surface or an ack-configure (the configure payload is opaque here,
carried as its serial). -/
inductive LayerShellRequest where
  | NewLayerSurface : Nat → Option Nat → Layer → String → LayerShellRequest
  | AckConfigure : Nat → Nat → LayerShellRequest
deriving DecidableEq, Repr

/-- `Inner::wlr_layer_shell_request` (src/shell/shell_manager/wlr_layer.rs):
a new layer surface is reported as `LayerCreated`; an ack-configure is
forwarded verbatim as `LayerAckConfigure`.  Neither branch touches any
registry or per-surface state. -/
def wlr_layer_shell_request (st : Inner) (req : LayerShellRequest) :
    Inner × List Action :=
  match req with
  | LayerShellRequest.NewLayerSurface surface output layer ns =>
    (st, [Action.event (ShellEvent.LayerCreated surface output layer ns)])
  | LayerShellRequest.AckConfigure surface configure =>
    (st, [Action.event (ShellEvent.LayerAckConfigure surface configure)])

/-- A whole run of the dispatch loop restricted to commits: each element is
a committed surface with its environment snapshot.  A panic (popup
configure-send failure) kills the process: the actions emitted before the
panic are kept and no later commit is processed. -/
def run (st : Inner) (commits : List (Nat × CommitCtx)) : Inner × List Action :=
  match commits with
  | [] => (st, [])
  | (s, ctx) :: rest =>
    match surface_commit st s ctx with
    | Except.error e => (st, e.2)
    | Except.ok (st', acts) =>
      let r := run st' rest
      (r.1, acts ++ r.2)

/-- Counts the configure sends addressed to `surface` in an action list. -/
def countSendsFor (surface : Nat) (acts : List Action) : Nat :=
  acts.countP (fun a =>
    match a with
    | Action.sendPopupConfigure s => s == surface
    | Action.sendLayerConfigure s => s == surface
    | _ => false)

/-- The resize payload carried by an active resize state (`Resizing`,
`WaitingForFinalAck` or `WaitingForCommit`), if any; statement helper. -/
def ResizeState.activeData : ResizeState → Option ResizeData
  | ResizeState.Resizing rd => some rd
  | ResizeState.WaitingForFinalAck rd _ => some rd
  | ResizeState.WaitingForCommit rd => some rd
  | ResizeState.NotResizing => none

/-- Statement helper: this commit produces a new x-coordinate for the
surface — either a queued move-after-resize target or an active resize
dragging the LEFT edge. -/
def xAdjusted (d : SurfaceData) : Bool :=
  match d.move_after_resize_state with
  | MoveAfterResizeState.WaitingForCommit _ => true
  | _ =>
    match d.resize_state.activeData with
    | some rd => rd.edges.left
    | none => false

/-- Statement helper: this commit produces a new y-coordinate for the
surface — either a queued move-after-resize target or an active resize
dragging the TOP edge. -/
def yAdjusted (d : SurfaceData) : Bool :=
  match d.move_after_resize_state with
  | MoveAfterResizeState.WaitingForCommit _ => true
  | _ =>
    match d.resize_state.activeData with
    | some rd => rd.edges.top
    | none => false

/-- Statement helper: is the move-after-resize state `WaitingForCommit`? -/
def MoveAfterResizeState.isWaitingForCommit : MoveAfterResizeState → Bool
  | MoveAfterResizeState.WaitingForCommit _ => true
  | _ => false

/-- Statement helper: no pending surface is simultaneously in the
mapped-window or mapped-layer registry. -/
def pendingMappedDisjoint (st : Inner) : Bool :=
  st.not_mapped_list.all (fun x => !(st.windows.contains x) && !(st.layers.contains x))

/-- Statement helper: 1 while the surface's initial configure is still
unsent, 0 afterwards; the send budget remaining for the surface. -/
def cfgPotential (s : Nat) (st : Inner) : Nat :=
  if st.configure_sent s then 0 else 1

/-- Statement helper: the result state of a commit pass satisfies a boolean
predicate (vacuously on the panic path, which has no result state). -/
def okState (r : Except (String × List Action) (Inner × List Action))
    (p : Inner → Bool) : Bool :=
  match r with
  | Except.ok x => p x.1
  | Except.error _ => true

/-! ## Theorems -/

/-! ### Auxiliary lemmas -/

theorem try_window_map_fields (st : Inner) (s : Nat) (m : Bool) :
    (try_window_map st s m).2.popups = st.popups ∧
    (try_window_map st s m).2.layers = st.layers ∧
    (try_window_map st s m).2.configure_sent = st.configure_sent ∧
    (try_window_map st s m).2.surface_data = st.surface_data ∧
    (try_window_map st s m).2.windows = st.windows := by
  unfold try_window_map
  split <;> simp

theorem try_window_map_none (st : Inner) (s : Nat) (m : Bool) (st' : Inner)
    (h : try_window_map st s m = (none, st')) : st' = st := by
  unfold try_window_map at h
  split at h <;> simp_all

theorem try_window_map_some (st : Inner) (s : Nat) (m : Bool) (w : Nat) (st' : Inner)
    (h : try_window_map st s m = (some w, st')) :
    w = s ∧ st' = { st with not_mapped_list := st.not_mapped_list.filter (· != s) } ∧
      st.not_mapped_list.contains s = true ∧ m = true := by
  unfold try_window_map at h
  split at h
  · simp at h
    rcases h with ⟨rfl, rfl⟩
    simp_all
  · simp at h

theorem try_update_mapped_fields (st : Inner) (s : Nat) (g : Size) :
    (try_update_mapped st s g).1.popups = st.popups ∧
    (try_update_mapped st s g).1.layers = st.layers ∧
    (try_update_mapped st s g).1.configure_sent = st.configure_sent ∧
    (try_update_mapped st s g).1.not_mapped_list = st.not_mapped_list ∧
    (try_update_mapped st s g).1.windows = st.windows := by
  by_cases hw : s ∈ st.windows
  · rcases hd : (st.surface_data s).resize_state with _ | rd | ⟨rd, n⟩ | rd <;>
      rcases hmv : (st.surface_data s).move_after_resize_state with _ | md | md <;>
      first
        | (cases hl : rd.edges.left <;> cases ht : rd.edges.top <;>
            simp [try_update_mapped, hw, hd, hmv, ResizeEdge.intersects,
              ResizeEdge.TOP_LEFT, ResizeEdge.LEFT, ResizeEdge.TOP, hl, ht])
        | simp [try_update_mapped, hw, hd, hmv]
  · simp [try_update_mapped, hw]

theorem try_update_mapped_acts_shape (st : Inner) (s : Nat) (g : Size) :
    (try_update_mapped st s g).2 = [] ∨
    ∃ nx ny, (try_update_mapped st s g).2 =
      [Action.event (ShellEvent.WindowGotResized s nx ny)] := by
  by_cases hw : s ∈ st.windows
  · rcases hd : (st.surface_data s).resize_state with _ | rd | ⟨rd, n⟩ | rd <;>
      rcases hmv : (st.surface_data s).move_after_resize_state with _ | md | md <;>
      first
        | (cases hl : rd.edges.left <;> cases ht : rd.edges.top <;>
            simp [try_update_mapped, hw, hd, hmv, ResizeEdge.intersects,
              ResizeEdge.TOP_LEFT, ResizeEdge.LEFT, ResizeEdge.TOP, hl, ht])
        | simp [try_update_mapped, hw, hd, hmv]
  · simp [try_update_mapped, hw]

theorem countSendsFor_append (s : Nat) (l1 l2 : List Action) :
    countSendsFor s (l1 ++ l2) = countSendsFor s l1 + countSendsFor s l2 :=
  List.countP_append _ _ _

theorem try_update_mapped_no_sends (s : Nat) (st : Inner) (s' : Nat) (g : Size) :
    countSendsFor s (try_update_mapped st s' g).2 = 0 := by
  rcases try_update_mapped_acts_shape st s' g with h | ⟨nx, ny, h⟩ <;>
    simp [h, countSendsFor]

theorem layer_initial_configure_budget (s : Nat) (st : Inner) (s' : Nat) :
    countSendsFor s (layer_initial_configure st s').2 +
      cfgPotential s (layer_initial_configure st s').1 ≤ cfgPotential s st ∧
    (layer_initial_configure st s').1.not_mapped_list = st.not_mapped_list ∧
    (layer_initial_configure st s').1.windows = st.windows ∧
    (layer_initial_configure st s').1.layers = st.layers := by
  unfold layer_initial_configure
  by_cases hss : s = s'
  · subst hss
    cases hl : st.layers.contains s <;> cases hc : st.configure_sent s <;>
      simp [hl, hc, countSendsFor, cfgPotential, Inner.markConfigureSent]
  · cases hl : st.layers.contains s' <;> cases hc : st.configure_sent s' <;>
      simp [hl, hc, countSendsFor, cfgPotential, Inner.markConfigureSent, hss,
        Ne.symm hss]

theorem try_map_unmaped_budget (s : Nat) (st : Inner) (s' : Nat) (ctx : CommitCtx) :
    (∀ st1 acts, try_map_unmaped st s' ctx = Except.ok (st1, acts) →
      countSendsFor s acts + cfgPotential s st1 ≤ cfgPotential s st ∧
      st1.layers = st.layers) ∧
    (∀ e, try_map_unmaped st s' ctx = Except.error e → countSendsFor s e.2 = 0) := by
  have hfields := try_window_map_fields st s' ctx.mappable
  unfold try_map_unmaped
  rcases htw : try_window_map st s' ctx.mappable with ⟨r, stm⟩
  rw [htw] at hfields
  by_cases hss : s = s'
  · subst hss
    rcases r with _ | w <;>
      cases hc : stm.popups.contains s <;> cases hf2 : stm.configure_sent s <;>
      cases hk2 : ctx.popup_send_ok <;>
      simp_all [countSendsFor, cfgPotential, Inner.markConfigureSent]
  · rcases r with _ | w <;>
      cases hc : stm.popups.contains s' <;> cases hf2 : stm.configure_sent s' <;>
      cases hk2 : ctx.popup_send_ok <;>
      simp_all [countSendsFor, cfgPotential, Inner.markConfigureSent, hss, Ne.symm hss]

theorem layer_initial_configure_acts_shape (st : Inner) (s : Nat) :
    (layer_initial_configure st s).2 = [] ∨
    (layer_initial_configure st s).2 = [Action.sendLayerConfigure s] := by
  unfold layer_initial_configure
  cases hl : st.layers.contains s <;> cases hc : st.configure_sent s <;> simp

theorem try_map_unmaped_ok_acts (st : Inner) (s : Nat) (ctx : CommitCtx)
    (st1 : Inner) (acts : List Action)
    (h : try_map_unmaped st s ctx = Except.ok (st1, acts)) :
    ∀ a ∈ acts, a = Action.event (ShellEvent.WindowCreated s) ∨
      a = Action.sendPopupConfigure s := by
  unfold try_map_unmaped at h
  rcases htw : try_window_map st s ctx.mappable with ⟨r, stm⟩
  rw [htw] at h
  rcases r with _ | w
  · cases hc : stm.popups.contains s <;> cases hf2 : stm.configure_sent s <;>
      cases hk2 : ctx.popup_send_ok <;>
      (simp_all; try (obtain ⟨-, rfl⟩ := h; simp))
  · obtain ⟨rfl, -, -, -⟩ := try_window_map_some st s ctx.mappable w stm htw
    cases hc : stm.popups.contains w <;> cases hf2 : stm.configure_sent w <;>
      cases hk2 : ctx.popup_send_ok <;>
      (simp_all; try (obtain ⟨-, rfl⟩ := h; simp))

theorem try_map_unmaped_registries (st : Inner) (s : Nat) (ctx : CommitCtx)
    (st1 : Inner) (acts : List Action)
    (h : try_map_unmaped st s ctx = Except.ok (st1, acts)) :
    ((st1.not_mapped_list = st.not_mapped_list ∧ st1.windows = st.windows) ∨
     (st1.not_mapped_list = st.not_mapped_list.filter (· != s) ∧
      st1.windows = st.windows ++ [s])) ∧
    st1.layers = st.layers := by
  unfold try_map_unmaped at h
  rcases htw : try_window_map st s ctx.mappable with ⟨r, stm⟩
  rw [htw] at h
  rcases r with _ | w
  · have hstm := try_window_map_none st s ctx.mappable stm htw
    rw [hstm] at h
    cases hc : st.popups.contains s <;> cases hf2 : st.configure_sent s <;>
      cases hk2 : ctx.popup_send_ok <;>
      (simp_all [Inner.markConfigureSent]; try (obtain ⟨rfl, rfl⟩ := h; simp))
  · obtain ⟨rfl, rfl, -, -⟩ := try_window_map_some st s ctx.mappable w stm htw
    cases hc : st.popups.contains w <;> cases hf2 : st.configure_sent w <;>
      cases hk2 : ctx.popup_send_ok <;>
      (simp_all [Inner.markConfigureSent]; try (obtain ⟨rfl, rfl⟩ := h; simp))

theorem surface_commit_registries (st : Inner) (s : Nat) (ctx : CommitCtx)
    (st' : Inner) (acts : List Action)
    (h : surface_commit st s ctx = Except.ok (st', acts)) :
    ((st'.not_mapped_list = st.not_mapped_list ∧ st'.windows = st.windows) ∨
     (st'.not_mapped_list = st.not_mapped_list.filter (· != s) ∧
      st'.windows = st.windows ++ [s])) ∧
    st'.layers = st.layers := by
  unfold surface_commit at h
  rcases hmu : try_map_unmaped st s ctx with e | ⟨st1, acts1⟩ <;> rw [hmu] at h
  · simp at h
  · simp only [Except.ok.injEq, Prod.mk.injEq] at h
    obtain ⟨hst, -⟩ := h
    subst hst
    obtain ⟨hpro, hlay⟩ := try_map_unmaped_registries st s ctx st1 acts1 hmu
    obtain ⟨-, hulay, -, hunml, huwin⟩ := try_update_mapped_fields st1 s ctx.geometry
    obtain ⟨-, hl1, hl2, hl3⟩ :=
      layer_initial_configure_budget s (try_update_mapped st1 s ctx.geometry).1 s
    rw [hl1, hl2, hl3, hunml, huwin, hulay]
    exact ⟨hpro, hlay⟩

theorem surface_commit_budget (s : Nat) (st : Inner) (s' : Nat) (ctx : CommitCtx) :
    (∀ st1 acts, surface_commit st s' ctx = Except.ok (st1, acts) →
      countSendsFor s acts + cfgPotential s st1 ≤ cfgPotential s st) ∧
    (∀ e, surface_commit st s' ctx = Except.error e → countSendsFor s e.2 = 0) := by
  obtain ⟨hok, herr⟩ := try_map_unmaped_budget s st s' ctx
  unfold surface_commit
  rcases hmu : try_map_unmaped st s' ctx with e | ⟨stm, actsm⟩
  · constructor
    · intro st1 acts h
      simp at h
    · intro e2 h
      simp only [Except.error.injEq] at h
      obtain rfl := h.symm
      show countSendsFor s
        ([Action.onCommitBuffer s', Action.popupCommit s'] ++ e.2) = 0
      rw [countSendsFor_append, herr e hmu]
      simp [countSendsFor]
  · constructor
    · intro st1 acts h
      simp only [Except.ok.injEq, Prod.mk.injEq] at h
      obtain ⟨rfl, rfl⟩ := h
      obtain ⟨hbm, -⟩ := hok stm actsm hmu
      obtain ⟨-, -, hcfgu, -, -⟩ := try_update_mapped_fields stm s' ctx.geometry
      have hbl := (layer_initial_configure_budget s
        (try_update_mapped stm s' ctx.geometry).1 s').1
      have hcfgu' : cfgPotential s (try_update_mapped stm s' ctx.geometry).1 =
          cfgPotential s stm := by
        unfold cfgPotential
        rw [hcfgu]
      have hnu := try_update_mapped_no_sends s stm s' ctx.geometry
      rw [hcfgu'] at hbl
      have e0 : countSendsFor s [Action.onCommitBuffer s', Action.popupCommit s'] = 0 := by
        simp [countSendsFor]
      have e1 : countSendsFor s [Action.event (ShellEvent.SurfaceCommit s')] = 0 := by
        simp [countSendsFor]
      rw [countSendsFor_append, countSendsFor_append, countSendsFor_append,
        countSendsFor_append, e0, e1, hnu]
      omega
    · intro e2 h
      simp at h

theorem run_budget (s : Nat) (commits : List (Nat × CommitCtx)) : ∀ st : Inner,
    countSendsFor s (run st commits).2 + cfgPotential s (run st commits).1 ≤
      cfgPotential s st := by
  induction commits with
  | nil =>
    intro st
    simp [run, countSendsFor]
  | cons c rest ih =>
    intro st
    rcases c with ⟨s', ctx⟩
    obtain ⟨hok, herr⟩ := surface_commit_budget s st s' ctx
    unfold run
    rcases hmu : surface_commit st s' ctx with e | ⟨st', acts⟩
    · have h0 := herr e hmu
      simp [h0]
    · have h1 := hok st' acts hmu
      have h2 := ih st'
      simp only [countSendsFor_append]
      omega

/-- C1: On a commit of a mapped window with an active resize (Resizing,
WaitingForFinalAck or WaitingForCommit) and no queued move-after-resize
target: if the edges include LEFT, the reported new x-location is
`initial_location.x + (initial_size.width - current_size.width)`; if they
include TOP, the reported new y-location is
`initial_location.y + (initial_size.height - current_size.height)`; if they
include neither, the resize reports no location adjustment. -/
theorem resize_edges_location_rule (st : Inner) (s : Nat) (g : Size) (rd : ResizeData)
    (hw : st.windows.contains s = true)
    (hr : (st.surface_data s).resize_state = ResizeState.Resizing rd ∨
      (∃ n, (st.surface_data s).resize_state = ResizeState.WaitingForFinalAck rd n) ∨
      (st.surface_data s).resize_state = ResizeState.WaitingForCommit rd)
    (hm : (st.surface_data s).move_after_resize_state.isWaitingForCommit = false) :
    (rd.edges.left = true →
      ∃ ny, (try_update_mapped st s g).2 =
        [Action.event (ShellEvent.WindowGotResized s
          (some (rd.initial_window_location.x + (rd.initial_window_size.w - g.w))) ny)]) ∧
    (rd.edges.top = true →
      ∃ nx, (try_update_mapped st s g).2 =
        [Action.event (ShellEvent.WindowGotResized s nx
          (some (rd.initial_window_location.y + (rd.initial_window_size.h - g.h))))]) ∧
    (rd.edges.left = false → rd.edges.top = false →
      (try_update_mapped st s g).2 = []) := by
  have hw' : s ∈ st.windows := by simpa using hw
  rcases hmv : (st.surface_data s).move_after_resize_state with _ | md | md
  case WaitingForCommit =>
    rw [hmv] at hm
    simp [MoveAfterResizeState.isWaitingForCommit] at hm
  all_goals
    rcases hr with hd | ⟨n, hd⟩ | hd <;>
    cases hl : rd.edges.left <;> cases ht : rd.edges.top <;>
      simp [try_update_mapped, hw', hd, hmv, ResizeEdge.intersects,
        ResizeEdge.TOP_LEFT, ResizeEdge.LEFT, ResizeEdge.TOP, hl, ht]

/-- Witness for C1 at the spec's two worked examples: `edges={LEFT}`,
`initial_location=(10,20)`, `initial_size=(100,50)`, current size `(80,50)`
gives `new_x = 30` with y unreported; and `edges={TOP,LEFT}`,
`initial_location=(0,0)`, `initial_size=(200,200)`, current size `(150,150)`
gives `new_x = 50` and `new_y = 50`. -/
theorem resize_edges_location_rule_witness :
    (∃ ny, (try_update_mapped
        ⟨[], [1], [], [],
          fun x => if x = 1 then
            ⟨ResizeState.WaitingForCommit ⟨ResizeEdge.LEFT, ⟨10, 20⟩, ⟨100, 50⟩⟩,
             MoveAfterResizeState.Idle⟩
          else SurfaceData.default,
          fun _ => false⟩ 1 ⟨80, 50⟩).2 =
      [Action.event (ShellEvent.WindowGotResized 1 (some 30) ny)]) ∧
    (∃ ny, (try_update_mapped
        ⟨[], [1], [], [],
          fun x => if x = 1 then
            ⟨ResizeState.WaitingForCommit ⟨ResizeEdge.TOP_LEFT, ⟨0, 0⟩, ⟨200, 200⟩⟩,
             MoveAfterResizeState.Idle⟩
          else SurfaceData.default,
          fun _ => false⟩ 1 ⟨150, 150⟩).2 =
      [Action.event (ShellEvent.WindowGotResized 1 (some 50) ny)]) := by
  constructor
  · have h := resize_edges_location_rule
      ⟨[], [1], [], [],
        fun x => if x = 1 then
          ⟨ResizeState.WaitingForCommit ⟨ResizeEdge.LEFT, ⟨10, 20⟩, ⟨100, 50⟩⟩,
           MoveAfterResizeState.Idle⟩
        else SurfaceData.default,
        fun _ => false⟩ 1 ⟨80, 50⟩ ⟨ResizeEdge.LEFT, ⟨10, 20⟩, ⟨100, 50⟩⟩
      (by decide) (Or.inr (Or.inr (by decide))) (by decide)
    exact h.1 (by decide)
  · have h := resize_edges_location_rule
      ⟨[], [1], [], [],
        fun x => if x = 1 then
          ⟨ResizeState.WaitingForCommit ⟨ResizeEdge.TOP_LEFT, ⟨0, 0⟩, ⟨200, 200⟩⟩,
           MoveAfterResizeState.Idle⟩
        else SurfaceData.default,
        fun _ => false⟩ 1 ⟨150, 150⟩ ⟨ResizeEdge.TOP_LEFT, ⟨0, 0⟩, ⟨200, 200⟩⟩
      (by decide) (Or.inr (Or.inr (by decide))) (by decide)
    exact h.1 (by decide)

/-- C2: On a commit of a mapped window whose move-after-resize state is
`WaitingForCommit target`, the queued target is applied on that commit
(whatever the resize state contributes, the reported location is the
target on both axes) and the state becomes `Current target`; a subsequent
commit with the state at `Current` and no active resize produces no further
location change from the move-after-resize mechanism. -/
theorem move_after_resize_applied (st : Inner) (s : Nat) (g : Size) (md : MoveAfterResizeData)
    (hw : st.windows.contains s = true)
    (hm : (st.surface_data s).move_after_resize_state =
      MoveAfterResizeState.WaitingForCommit md) :
    ((try_update_mapped st s g).2 =
      [Action.event (ShellEvent.WindowGotResized s
        (some md.target_window_location.x) (some md.target_window_location.y))]) ∧
    (((try_update_mapped st s g).1.surface_data s).move_after_resize_state =
      MoveAfterResizeState.Current md) ∧
    (∀ st2 : Inner, st2.windows.contains s = true →
      (st2.surface_data s).move_after_resize_state = MoveAfterResizeState.Current md →
      (st2.surface_data s).resize_state = ResizeState.NotResizing →
      (try_update_mapped st2 s g).2 = [] ∧
      ((try_update_mapped st2 s g).1.surface_data s).move_after_resize_state =
        MoveAfterResizeState.Current md) := by
  have hw' : s ∈ st.windows := by simpa using hw
  refine ⟨?_, ?_, ?_⟩
  · rcases hd : (st.surface_data s).resize_state with _ | rd | ⟨rd, n⟩ | rd <;>
      simp [try_update_mapped, hw', hd, hm]
  · rcases hd : (st.surface_data s).resize_state with _ | rd | ⟨rd, n⟩ | rd <;>
      simp [try_update_mapped, hw', hd, hm]
  · intro st2 hw2 hm2 hd2
    have hw2' : s ∈ st2.windows := by simpa using hw2
    constructor <;> simp [try_update_mapped, hw2', hd2, hm2]

/-- Witness for C2: a window at resize state `WaitingForCommit` with queued
move target `(300, 400)` reports exactly `(300, 400)` on the commit and
moves to `Current`; the follow-up commit with `Current` and `NotResizing`
reports nothing. -/
theorem move_after_resize_applied_witness :
    ((try_update_mapped
        ⟨[], [1], [], [],
          fun x => if x = 1 then
            ⟨ResizeState.WaitingForCommit ⟨ResizeEdge.LEFT, ⟨10, 20⟩, ⟨100, 50⟩⟩,
             MoveAfterResizeState.WaitingForCommit ⟨⟨300, 400⟩⟩⟩
          else SurfaceData.default,
          fun _ => false⟩ 1 ⟨80, 50⟩).2 =
      [Action.event (ShellEvent.WindowGotResized 1 (some 300) (some 400))]) ∧
    ((try_update_mapped
        ⟨[], [1], [], [],
          fun x => if x = 1 then
            ⟨ResizeState.NotResizing, MoveAfterResizeState.Current ⟨⟨300, 400⟩⟩⟩
          else SurfaceData.default,
          fun _ => false⟩ 1 ⟨80, 50⟩).2 = []) := by
  have h := move_after_resize_applied
    ⟨[], [1], [], [],
      fun x => if x = 1 then
        ⟨ResizeState.WaitingForCommit ⟨ResizeEdge.LEFT, ⟨10, 20⟩, ⟨100, 50⟩⟩,
         MoveAfterResizeState.WaitingForCommit ⟨⟨300, 400⟩⟩⟩
      else SurfaceData.default,
      fun _ => false⟩ 1 ⟨80, 50⟩ ⟨⟨300, 400⟩⟩ (by decide) (by decide)
  refine ⟨h.1, ?_⟩
  exact (h.2.2
    ⟨[], [1], [], [],
      fun x => if x = 1 then
        ⟨ResizeState.NotResizing, MoveAfterResizeState.Current ⟨⟨300, 400⟩⟩⟩
      else SurfaceData.default,
      fun _ => false⟩ (by decide) (by decide) (by decide)).1

/-- C3: On a commit of a mapped window whose resize state is
`WaitingForCommit`, the state returns to `NotResizing` (clearing the resize
data); once at `NotResizing` with no queued move-after-resize target, a
further commit reports no resize-completion notification and leaves the
state at `NotResizing`. -/
theorem resize_waiting_for_commit_clears (st : Inner) (s : Nat) (g : Size) :
    (∀ rd, st.windows.contains s = true →
      (st.surface_data s).resize_state = ResizeState.WaitingForCommit rd →
      ((try_update_mapped st s g).1.surface_data s).resize_state =
        ResizeState.NotResizing) ∧
    (st.windows.contains s = true →
      (st.surface_data s).resize_state = ResizeState.NotResizing →
      (st.surface_data s).move_after_resize_state.isWaitingForCommit = false →
      (try_update_mapped st s g).2 = [] ∧
      ((try_update_mapped st s g).1.surface_data s).resize_state =
        ResizeState.NotResizing) := by
  constructor
  · intro rd hw hd
    have hw' : s ∈ st.windows := by simpa using hw
    rcases hmv : (st.surface_data s).move_after_resize_state with _ | md | md <;>
      cases hl : rd.edges.left <;> cases ht : rd.edges.top <;>
      simp [try_update_mapped, hw', hd, hmv, ResizeEdge.intersects,
        ResizeEdge.TOP_LEFT, ResizeEdge.LEFT, ResizeEdge.TOP, hl, ht]
  · intro hw hd hm
    have hw' : s ∈ st.windows := by simpa using hw
    rcases hmv : (st.surface_data s).move_after_resize_state with _ | md | md
    case WaitingForCommit =>
      rw [hmv] at hm
      simp [MoveAfterResizeState.isWaitingForCommit] at hm
    all_goals constructor <;> simp [try_update_mapped, hw', hd, hmv]

/-- Witness for C3: a `WaitingForCommit` resize on a mapped window is
cleared to `NotResizing` by the commit, and a commit with `NotResizing` and
no queued move reports nothing and stays `NotResizing`. -/
theorem resize_waiting_for_commit_clears_witness :
    (((try_update_mapped
        ⟨[], [1], [], [],
          fun x => if x = 1 then
            ⟨ResizeState.WaitingForCommit ⟨ResizeEdge.LEFT, ⟨10, 20⟩, ⟨100, 50⟩⟩,
             MoveAfterResizeState.Idle⟩
          else SurfaceData.default,
          fun _ => false⟩ 1 ⟨80, 50⟩).1.surface_data 1).resize_state =
      ResizeState.NotResizing) ∧
    ((try_update_mapped
        ⟨[], [1], [], [],
          fun _ => SurfaceData.default,
          fun _ => false⟩ 1 ⟨80, 50⟩).2 = []) := by
  constructor
  · exact (resize_waiting_for_commit_clears
      ⟨[], [1], [], [],
        fun x => if x = 1 then
          ⟨ResizeState.WaitingForCommit ⟨ResizeEdge.LEFT, ⟨10, 20⟩, ⟨100, 50⟩⟩,
           MoveAfterResizeState.Idle⟩
        else SurfaceData.default,
        fun _ => false⟩ 1 ⟨80, 50⟩).1
      ⟨ResizeEdge.LEFT, ⟨10, 20⟩, ⟨100, 50⟩⟩ (by decide) (by decide)
  · exact ((resize_waiting_for_commit_clears
      ⟨[], [1], [], [],
        fun _ => SurfaceData.default,
        fun _ => false⟩ 1 ⟨80, 50⟩).2 (by decide) (by decide) (by decide)).1

/-- C5: On a commit of a mapped window, a `WindowGotResized` notification is
reported if and only if at least one axis of the window's location is
adjusted on that commit (by an active LEFT/TOP-edge resize or a queued
move-after-resize target), and the notification carries `some` exactly on
the adjusted axes — an absent axis means that axis is unchanged. -/
theorem resized_report_iff_axis_adjusted (st : Inner) (s : Nat) (g : Size)
    (hw : st.windows.contains s = true) :
    ((try_update_mapped st s g).2 ≠ [] ↔
      (xAdjusted (st.surface_data s) || yAdjusted (st.surface_data s)) = true) ∧
    (∀ w nx ny,
      Action.event (ShellEvent.WindowGotResized w nx ny) ∈ (try_update_mapped st s g).2 →
      w = s ∧ nx.isSome = xAdjusted (st.surface_data s) ∧
        ny.isSome = yAdjusted (st.surface_data s)) := by
  have hw' : s ∈ st.windows := by simpa using hw
  rcases hd : (st.surface_data s).resize_state with _ | rd | ⟨rd, n⟩ | rd
  case NotResizing =>
    rcases hmv : (st.surface_data s).move_after_resize_state with _ | md | md <;>
      constructor <;>
      simp [try_update_mapped, xAdjusted, yAdjusted, ResizeState.activeData, hw', hd, hmv] <;>
      (intros; subst_vars; simp)
  all_goals
    rcases hmv : (st.surface_data s).move_after_resize_state with _ | md | md <;>
    cases hl : rd.edges.left <;> cases ht : rd.edges.top <;> constructor <;>
      simp [try_update_mapped, xAdjusted, yAdjusted, ResizeState.activeData, hw', hd, hmv,
        ResizeEdge.intersects, ResizeEdge.TOP_LEFT, ResizeEdge.LEFT, ResizeEdge.TOP, hl, ht] <;>
      (intros; subst_vars; simp)

/-- Witness for C5: a mapped window resized by its LEFT edge reports a
notification with the x-axis present and the y-axis absent. -/
theorem resized_report_iff_axis_adjusted_witness :
    ((try_update_mapped
        ⟨[], [1], [], [],
          fun x => if x = 1 then
            ⟨ResizeState.Resizing ⟨ResizeEdge.LEFT, ⟨10, 20⟩, ⟨100, 50⟩⟩,
             MoveAfterResizeState.Idle⟩
          else SurfaceData.default,
          fun _ => false⟩ 1 ⟨80, 50⟩).2 ≠ []) ∧
    ((some (30 : Int)).isSome = true ∧ (none : Option Int).isSome = false) := by
  have h := resized_report_iff_axis_adjusted
    ⟨[], [1], [], [],
      fun x => if x = 1 then
        ⟨ResizeState.Resizing ⟨ResizeEdge.LEFT, ⟨10, 20⟩, ⟨100, 50⟩⟩,
         MoveAfterResizeState.Idle⟩
      else SurfaceData.default,
      fun _ => false⟩ 1 ⟨80, 50⟩ (by decide)
  exact ⟨h.1.mpr (by decide), by decide, by decide⟩

/-- C4 counterexample: a commit of a popup surface whose initial configure
has not been sent and whose configure send fails hits
`.expect("Initial configure failed")` — the commit-handling pass terminates
the whole program (modelled as `Except.error`), so the failure is neither
survived nor reported upward as the claim states. -/
theorem popup_send_failure_aborts_counterexample :
    surface_commit ⟨[], [], [], [7], fun _ => SurfaceData.default, fun _ => false⟩ 7
      ⟨false, false, ⟨0, 0⟩⟩ =
    Except.error ("Initial configure failed",
      [Action.onCommitBuffer 7, Action.popupCommit 7]) := rfl

/-- C4 (amended): a failed initial configure send for a popup surface
panics (terminates the program) with message "Initial configure failed";
commit handling aborts exactly when the committed surface is a
not-yet-configured popup whose send fails, and completes normally in every
other case (a layer configure send has no failure path). -/
theorem popup_send_failure_aborts (st : Inner) (s : Nat) (ctx : CommitCtx) :
    (st.popups.contains s = true → st.configure_sent s = false →
      ctx.popup_send_ok = false →
      ∃ pre, surface_commit st s ctx =
        Except.error ("Initial configure failed", pre)) ∧
    (st.popups.contains s = false ∨ st.configure_sent s = true ∨
      ctx.popup_send_ok = true →
      ∃ r, surface_commit st s ctx = Except.ok r) := by
  have hfields := try_window_map_fields st s ctx.mappable
  unfold surface_commit try_map_unmaped
  rcases htw : try_window_map st s ctx.mappable with ⟨r, stm⟩
  rw [htw] at hfields
  constructor
  · intro hp hf hk
    rcases r with _ | w <;> simp_all
  · intro h
    rcases r with _ | w <;>
      cases hc : st.popups.contains s <;> cases hf2 : st.configure_sent s <;>
      cases hk2 : ctx.popup_send_ok <;> simp_all

/-- Witness for C4 (amended): at a concrete not-yet-configured popup whose
send fails the pass aborts; flipping the send to succeed completes it. -/
theorem popup_send_failure_aborts_witness :
    (∃ pre, surface_commit
      ⟨[], [], [], [9], fun _ => SurfaceData.default, fun _ => false⟩ 9
      ⟨false, false, ⟨0, 0⟩⟩ =
      Except.error ("Initial configure failed", pre)) ∧
    (∃ r, surface_commit
      ⟨[], [], [], [9], fun _ => SurfaceData.default, fun _ => false⟩ 9
      ⟨false, true, ⟨0, 0⟩⟩ = Except.ok r) := by
  constructor
  · exact (popup_send_failure_aborts
      ⟨[], [], [], [9], fun _ => SurfaceData.default, fun _ => false⟩ 9
      ⟨false, false, ⟨0, 0⟩⟩).1 (by decide) (by decide) (by decide)
  · exact (popup_send_failure_aborts
      ⟨[], [], [], [9], fun _ => SurfaceData.default, fun _ => false⟩ 9
      ⟨false, true, ⟨0, 0⟩⟩).2 (Or.inr (Or.inr (by decide)))

/-- C7 counterexample: on a commit of a not-yet-configured popup whose
configure send fails, the pass dies in the panic — the actions emitted
before the abort contain no generic `SurfaceCommit` notification, so the
notification is not reported on every commit. -/
theorem generic_commit_reported_counterexample :
    surface_commit ⟨[], [], [], [8], fun _ => SurfaceData.default, fun _ => false⟩ 8
      ⟨false, false, ⟨0, 0⟩⟩ =
    Except.error ("Initial configure failed",
      [Action.onCommitBuffer 8, Action.popupCommit 8]) ∧
    Action.event (ShellEvent.SurfaceCommit 8) ∉
      [Action.onCommitBuffer 8, Action.popupCommit 8] := ⟨rfl, by decide⟩

/-- C7 (amended): on every commit whose handling completes (no popup
configure-send panic), the generic `SurfaceCommit` notification for the
committed surface is reported, exactly once, and strictly after every other
action of the pass. -/
theorem generic_commit_reported_last (st : Inner) (s : Nat) (ctx : CommitCtx)
    (st' : Inner) (acts : List Action)
    (h : surface_commit st s ctx = Except.ok (st', acts)) :
    ∃ pre, acts = pre ++ [Action.event (ShellEvent.SurfaceCommit s)] ∧
      ∀ s2, Action.event (ShellEvent.SurfaceCommit s2) ∉ pre := by
  unfold surface_commit at h
  rcases hmu : try_map_unmaped st s ctx with e | ⟨st1, acts1⟩ <;> rw [hmu] at h
  · simp at h
  · simp only [Except.ok.injEq, Prod.mk.injEq] at h
    obtain ⟨-, hacts⟩ := h
    refine ⟨[Action.onCommitBuffer s, Action.popupCommit s] ++ acts1 ++
      (try_update_mapped st1 s ctx.geometry).2 ++
      (layer_initial_configure (try_update_mapped st1 s ctx.geometry).1 s).2, ?_, ?_⟩
    · rw [← hacts]
    · intro s2
      have h1 := try_map_unmaped_ok_acts st s ctx st1 acts1 hmu
      have h2 := try_update_mapped_acts_shape st1 s ctx.geometry
      have h3 := layer_initial_configure_acts_shape
        (try_update_mapped st1 s ctx.geometry).1 s
      intro hmem
      rcases List.mem_append.mp hmem with hmem' | hmem3
      · rcases List.mem_append.mp hmem' with hmem'' | hmem2
        · rcases List.mem_append.mp hmem'' with h0 | hmem1
          · simp at h0
          · rcases h1 _ hmem1 with h0 | h0 <;> simp at h0
        · rcases h2 with h0 | ⟨nx, ny, h0⟩ <;> rw [h0] at hmem2 <;> simp at hmem2
      · rcases h3 with h0 | h0 <;> rw [h0] at hmem3 <;> simp at hmem3

/-- Witness for C7 (amended): on a commit of a surface unknown to every
registry, the action list ends with — and otherwise does not contain — the
generic `SurfaceCommit` notification. -/
theorem generic_commit_reported_last_witness :
    ∃ pre, [Action.onCommitBuffer 2, Action.popupCommit 2,
        Action.event (ShellEvent.SurfaceCommit 2)] =
      pre ++ [Action.event (ShellEvent.SurfaceCommit 2)] ∧
      ∀ s2, Action.event (ShellEvent.SurfaceCommit s2) ∉ pre :=
  generic_commit_reported_last
    ⟨[], [], [], [], fun _ => SurfaceData.default, fun _ => false⟩ 2
    ⟨true, true, ⟨0, 0⟩⟩ _ _ rfl

/-- C6: Over any sequence of commits whatsoever, a surface whose initial
configure has not yet been sent receives at most one configure send, and a
surface whose flag is already set receives none — the initial-configure
send is a one-shot for the surface's whole lifetime. -/
theorem initial_configure_at_most_once (st : Inner) (s : Nat)
    (commits : List (Nat × CommitCtx)) :
    (st.configure_sent s = false → countSendsFor s (run st commits).2 ≤ 1) ∧
    (st.configure_sent s = true → countSendsFor s (run st commits).2 = 0) := by
  have h := run_budget s commits st
  constructor <;> intro hf <;> simp [cfgPotential, hf] at h <;> omega

/-- Witness for C6: a mapped layer surface committed twice gets exactly one
configure send (so at most one), and with the flag pre-set it gets none. -/
theorem initial_configure_at_most_once_witness :
    countSendsFor 3 (run ⟨[], [], [3], [], fun _ => SurfaceData.default, fun _ => false⟩
      [(3, ⟨false, true, ⟨0, 0⟩⟩), (3, ⟨false, true, ⟨0, 0⟩⟩)]).2 ≤ 1 ∧
    countSendsFor 3 (run ⟨[], [], [3], [], fun _ => SurfaceData.default, fun _ => true⟩
      [(3, ⟨false, true, ⟨0, 0⟩⟩)]).2 = 0 := by
  constructor
  · exact (initial_configure_at_most_once
      ⟨[], [], [3], [], fun _ => SurfaceData.default, fun _ => false⟩ 3
      [(3, ⟨false, true, ⟨0, 0⟩⟩), (3, ⟨false, true, ⟨0, 0⟩⟩)]).1 (by decide)
  · exact (initial_configure_at_most_once
      ⟨[], [], [3], [], fun _ => SurfaceData.default, fun _ => true⟩ 3
      [(3, ⟨false, true, ⟨0, 0⟩⟩)]).2 (by decide)

/-- C8: If no surface is simultaneously pending and mapped (window or
layer), this still holds after any commit pass: promotion removes the
surface from the pending list in the very step that appends it to the
window registry, so the disjointness invariant is preserved at every
commit boundary. -/
theorem pending_mapped_disjoint_preserved (st : Inner) (s : Nat) (ctx : CommitCtx)
    (hinv : pendingMappedDisjoint st = true) :
    okState (surface_commit st s ctx) pendingMappedDisjoint = true := by
  unfold okState
  rcases hmu : surface_commit st s ctx with e | ⟨st', acts⟩
  · rfl
  · obtain ⟨hreg, hlay⟩ := surface_commit_registries st s ctx st' acts hmu
    simp only [pendingMappedDisjoint, List.all_eq_true] at hinv ⊢
    intro x hx
    rcases hreg with ⟨h1, h2⟩ | ⟨h1, h2⟩
    · rw [h1] at hx
      rw [h2, hlay]
      exact hinv x hx
    · rw [h1, List.mem_filter] at hx
      obtain ⟨hx1, hx2⟩ := hx
      have h0 := hinv x hx1
      rw [h2, hlay]
      simp only [Bool.and_eq_true, Bool.not_eq_true'] at h0 ⊢
      refine ⟨?_, h0.2⟩
      have hxne : x ≠ s := by simpa using hx2
      simp only [List.contains, List.elem_eq_mem, decide_eq_false_iff_not] at h0 ⊢
      simp [h0.1, hxne]

/-- Witness for C8: promoting pending surface 5 into the window registry
preserves the disjointness invariant on the resulting state. -/
theorem pending_mapped_disjoint_preserved_witness :
    pendingMappedDisjoint ⟨[5], [1], [3], [], fun _ => SurfaceData.default,
      fun _ => false⟩ = true ∧
    okState (surface_commit ⟨[5], [1], [3], [], fun _ => SurfaceData.default,
      fun _ => false⟩ 5 ⟨true, true, ⟨0, 0⟩⟩) pendingMappedDisjoint = true :=
  ⟨by decide, pending_mapped_disjoint_preserved
    ⟨[5], [1], [3], [], fun _ => SurfaceData.default, fun _ => false⟩ 5
    ⟨true, true, ⟨0, 0⟩⟩ (by decide)⟩

/-- C9: Promotion succeeds at most once per surface: a call returning a
window removes the surface from the pending set, so any further promotion
attempt for it returns nothing; promotion has no error outcome (its result
is an `Option`, and an unmappable surface is returned to the caller
untouched, left pending); and no commit pass ever re-adds a surface to the
pending set. -/
theorem promotion_at_most_once (st : Inner) (s : Nat) (m m2 : Bool) (w : Nat)
    (st1 : Inner) (h : try_window_map st s m = (some w, st1)) :
    w = s ∧ st1.not_mapped_list.contains s = false ∧
    (try_window_map st1 s m2).1 = none ∧
    (∀ st0 : Inner, ∀ s0 : Nat, try_window_map st0 s0 false = (none, st0)) ∧
    (∀ st2 s2 ctx st3 acts, surface_commit st2 s2 ctx = Except.ok (st3, acts) →
      st2.not_mapped_list.contains s = false →
      st3.not_mapped_list.contains s = false) := by
  obtain ⟨rfl, rfl, hmem, hm⟩ := try_window_map_some st s m w st1 h
  have hgone : (st.not_mapped_list.filter (· != w)).contains w = false := by
    simp [List.contains, List.elem_eq_mem, List.mem_filter]
  refine ⟨rfl, hgone, ?_, ?_, ?_⟩
  · unfold try_window_map
    simp [hgone]
  · intro st0 s0
    unfold try_window_map
    simp
  · intro st2 s2 ctx st3 acts hc hpend
    obtain ⟨hreg, -⟩ := surface_commit_registries st2 s2 ctx st3 acts hc
    rcases hreg with ⟨h1, -⟩ | ⟨h1, -⟩
    · rw [h1]
      exact hpend
    · rw [h1]
      simp only [List.contains, List.elem_eq_mem, decide_eq_false_iff_not,
        List.mem_filter] at hpend ⊢
      intro hx
      exact hpend hx.1

/-- Witness for C9: promoting surface 5 out of pending `[5, 6]` leaves a
pending list on which a second promotion attempt returns nothing. -/
theorem promotion_at_most_once_witness :
    (try_window_map
      ((try_window_map
        ⟨[5, 6], [], [], [], fun _ => SurfaceData.default, fun _ => false⟩ 5 true).2)
      5 true).1 = none :=
  (promotion_at_most_once
    ⟨[5, 6], [], [], [], fun _ => SurfaceData.default, fun _ => false⟩ 5 true true 5
    (try_window_map
      ⟨[5, 6], [], [], [], fun _ => SurfaceData.default, fun _ => false⟩ 5 true).2
    rfl).2.2.1

/-- C10: A commit referencing a surface known to no registry (pending,
window, layer, popup) is a benign no-op: the pass completes without error,
the state is returned untouched (registries and per-surface resize/move
state included), and only the external buffer/popup-tracker calls plus the
generic `SurfaceCommit` notification are emitted; similarly an
ack-configure is forwarded verbatim with no state mutation. -/
theorem unknown_surface_commit_benign (st : Inner) (s : Nat) (ctx : CommitCtx)
    (h1 : st.not_mapped_list.contains s = false)
    (h2 : st.windows.contains s = false)
    (h3 : st.layers.contains s = false)
    (h4 : st.popups.contains s = false) :
    surface_commit st s ctx =
      Except.ok (st, [Action.onCommitBuffer s, Action.popupCommit s,
        Action.event (ShellEvent.SurfaceCommit s)]) ∧
    (∀ cfg, wlr_layer_shell_request st (LayerShellRequest.AckConfigure s cfg) =
      (st, [Action.event (ShellEvent.LayerAckConfigure s cfg)])) := by
  have h2' : ¬(s ∈ st.windows) := by simpa using h2
  have h3' : ¬(s ∈ st.layers) := by simpa using h3
  refine ⟨?_, fun cfg => rfl⟩
  unfold surface_commit try_map_unmaped try_window_map layer_initial_configure
  rw [h1]
  simp only [Bool.false_and, Bool.false_eq_true, if_false]
  rw [h4]
  simp only [Bool.false_eq_true, if_false]
  simp [try_update_mapped, h2', h3']

/-- Witness for C10: committing surface 9, unknown to every registry of a
populated state, returns the state unchanged with only the generic
notification (plus external collaborator calls), and the ack-configure for
it is forwarded verbatim. -/
theorem unknown_surface_commit_benign_witness :
    surface_commit ⟨[2], [3], [4], [5], fun _ => SurfaceData.default, fun _ => false⟩ 9
      ⟨true, true, ⟨0, 0⟩⟩ =
      Except.ok (⟨[2], [3], [4], [5], fun _ => SurfaceData.default, fun _ => false⟩,
        [Action.onCommitBuffer 9, Action.popupCommit 9,
         Action.event (ShellEvent.SurfaceCommit 9)]) ∧
    (∀ cfg, wlr_layer_shell_request
      ⟨[2], [3], [4], [5], fun _ => SurfaceData.default, fun _ => false⟩
      (LayerShellRequest.AckConfigure 9 cfg) =
      (⟨[2], [3], [4], [5], fun _ => SurfaceData.default, fun _ => false⟩,
       [Action.event (ShellEvent.LayerAckConfigure 9 cfg)])) :=
  unknown_surface_commit_benign
    ⟨[2], [3], [4], [5], fun _ => SurfaceData.default, fun _ => false⟩ 9
    ⟨true, true, ⟨0, 0⟩⟩ (by decide) (by decide) (by decide) (by decide)

end Anodium
